import Mathlib

/-!
Shallow embedding of `remotespark/sparkkernelbase.py` (class `SparkKernelBase`).

Strings are modelled as `List Char`.  The cell-executor collaborator
(`IPythonKernel.do_execute`, reached through `_execute_cell_for_user`) is an
oracle `Executor : Nat → Reply` giving the reply to the n-th executor call;
the kernel state records the sequence of payload strings sent to it.  The
boolean arguments `silent`, `store_history`, `user_expressions`, `allow_stdin`
are passed through to the executor unchanged and never inspected by the core,
so they are not modelled.  Python exceptions are modelled with `Except`;
since Python state mutation survives a raise, every operation returns the
state alongside the `Except` value.  Logging and the stderr channel
(`_send_error`, `self.logger`) are write-only side effects never read back;
they are not modelled.
-/

namespace SparkKernelBase

/-- Reply status of an executor call: the `status` field of the reply content
(`"ok"` or `"error"`). -/
inductive Status
  | ok
  | error
deriving DecidableEq, Repr

/-- Reply content of one executor call: the only fields the core inspects,
`status` and `evalue`. -/
structure Reply where
  status : Status
  evalue : List Char
deriving DecidableEq, Repr

/-- The executor oracle: the reply to the n-th cell-executor call (indexed by
how many calls were made before it). -/
def Executor : Type := Nat → Reply

/-- The mutable instance state of `SparkKernelBase`, plus the immutable
construction-time configuration (`client_name`, `session_language`,
`connection_string`) and the trace `calls` of payloads sent to the executor. -/
structure KernelState where
  session_started : Bool
  fatal_error : Option (List Char)
  calls : List (List Char)
  client_name : List Char
  session_language : List Char
  connection_string : List Char
deriving DecidableEq, Repr

/-- Python exceptions raised by the core: `ValueError` (fatal abort),
`KeyError` (config-without-force, unsupported magic), `IndexError`
(list lookup in `_parse_user_command`). -/
inductive KernelError
  | valueError : List Char → KernelError
  | keyError : List Char → KernelError
  | indexError : KernelError
deriving DecidableEq, Repr

/-- `run_command = "run"`. -/
def run_command : List Char := "run".toList

/-- `config_command = "config"`. -/
def config_command : List Char := "config".toList

/-- `sql_command = "sql"`. -/
def sql_command : List Char := "sql".toList

/-- `hive_command = "hive"`. -/
def hive_command : List Char := "hive".toList

/-- Whitespace as recognized by Python `str.split(None, ...)` on ASCII text:
space, tab, newline, vertical tab, form feed, carriage return.  (Python also
splits on some non-ASCII Unicode whitespace; no payload or command string in
this core contains any.) -/
def isPySpace (c : Char) : Bool :=
  c == ' ' || c == '\t' || c == '\n' || c == '\x0b' || c == '\x0c' || c == '\r'

/-- Python `s.startswith(p)` for the one-character and two-character markers
used in `_parse_user_command`. -/
def pyStartsWith : List Char → List Char → Bool
  | _, [] => true
  | [], _ :: _ => false
  | c :: cs, p :: ps => c == p && pyStartsWith cs ps

/-- Python `s.split(None, 1)`: at most one split on the first run of
whitespace, leading whitespace discarded, empty result on all-whitespace
input.  Returns `[]`, `[token]`, or `[token, remainder]`; when the input
after discarding leading whitespace is `c :: cs`, `c` is not whitespace, so
the first token is `c` followed by the maximal non-whitespace run of `cs`. -/
def pySplit1 (s : List Char) : List (List Char) :=
  match s.dropWhile isPySpace with
  | [] => []
  | c :: cs =>
    let tok := c :: cs.takeWhile (fun x => !isPySpace x)
    let rest := (cs.dropWhile (fun x => !isPySpace x)).dropWhile isPySpace
    match rest with
    | [] => [tok]
    | _ :: _ => [tok, rest]

/-- The `while len(flag_split) >= 2 and flag_split[0].startswith("-")` loop of
`_parse_user_command`, with explicit fuel.  Each iteration strictly shortens
`rest` (see `pySplit1_snd_length_lt`), so fuel `rest.length` is always enough
and the fuel-0 arm is unreachable on the initial call made by `getFlags`. -/
def getFlagsAux : Nat → List (List Char) → List Char → List (List Char) × List Char
  | 0, flags, rest => (flags, rest)
  | Nat.succ n, flags, rest =>
    match pySplit1 rest with
    | [t, r] =>
      if t.head? = some '-' then
        getFlagsAux n (flags ++ [(t.drop 1).map Char.toLower]) r
      else (flags, rest)
    | _ => (flags, rest)

/-- The flag-collection loop of `_parse_user_command`, lines 152-157: pop
whitespace-separated tokens starting with `-` off the front of `rest` (each
stripped of one leading `-` and lower-cased) while a further remainder
exists. -/
def getFlags (flags : List (List Char)) (rest : List Char) :
    List (List Char) × List Char :=
  getFlagsAux rest.length flags rest

/-- The marker normalization of `_parse_user_command`, lines 136-147:
collapse a leading `%%` to `%`, wrap marker-less input as
`"%run " + code`, then strip the leading `%`. -/
def normalized_code (code : List Char) : List Char :=
  let code1 := if pyStartsWith code "%%".toList then code.drop 1 else code
  let code2 :=
    if !pyStartsWith code1 "%".toList then
      "%".toList ++ run_command ++ " ".toList ++ code1
    else code1
  code2.drop 1

/-- `_parse_user_command`: normalize markers, split off the lower-cased
subcommand (`split_code[0]`/`split_code[1]` raise `IndexError` when the split
yields fewer than two parts), run the flag loop, lower-case the flags again,
and return `(subcommand, flags, rest)`. -/
def _parse_user_command (code : List Char) :
    Except KernelError (List Char × List (List Char) × List Char) :=
  match pySplit1 (normalized_code code) with
  | [] => Except.error KernelError.indexError
  | [_] => Except.error KernelError.indexError
  | sub :: rest :: _ =>
    let subcommand := sub.map Char.toLower
    let p := getFlags [] rest
    Except.ok (subcommand, p.1.map (fun i => i.map Char.toLower), p.2)

/-- `_execute_cell_for_user`: forward the payload to the collaborator
(`super().do_execute`).  The payload is appended to the call trace and the
oracle supplies the reply to this (the `st.calls.length`-th) call. -/
def _execute_cell_for_user (ex : Executor) (code : List Char) (st : KernelState) :
    Reply × KernelState :=
  (ex st.calls.length, { st with calls := st.calls ++ [code] })

/-- `_abort_with_fatal_error`: record the message in the latch and raise
`ValueError(message)`.  (The formatted advisory sent to the logger and the
stderr channel is a write-only side effect, not modelled.) -/
def _abort_with_fatal_error (message : List Char) (st : KernelState) :
    Except KernelError Reply × KernelState :=
  (Except.error (KernelError.valueError message), { st with fatal_error := some message })

/-- The message `"{}\nException details:\n\t\"{}\"".format(log_if_error,
error_from_reply)` built in `_execute_cell` before aborting. -/
def exception_details_msg (log_if_error error_from_reply : List Char) : List Char :=
  log_if_error ++ "\nException details:\n\t\"".toList ++ error_from_reply ++ "\"".toList

/-- `_execute_cell`: run the payload through `_execute_cell_for_user`; when
`shutdown_if_error` is set and the reply status is `"error"` and a
`log_if_error` message was given, abort with a fatal error; otherwise return
the reply content. -/
def _execute_cell (ex : Executor) (code : List Char)
    (shutdown_if_error : Bool) (log_if_error : Option (List Char))
    (st : KernelState) : Except KernelError Reply × KernelState :=
  let p := _execute_cell_for_user ex code st
  if shutdown_if_error && (p.1.status == Status.error) then
    match log_if_error with
    | some li => _abort_with_fatal_error (exception_details_msg li p.1.evalue) p.2
    | none => (Except.ok p.1, p.2)
  else (Except.ok p.1, p.2)

/-- The payload `"%spark add {} {} {} skip".format(client_name,
session_language, connection_string)` built in `_start_session`. -/
def add_session_code (st : KernelState) : List Char :=
  "%spark add ".toList ++ st.client_name ++ " ".toList ++ st.session_language
    ++ " ".toList ++ st.connection_string ++ " skip".toList

/-- The `log_if_error` message passed by `_start_session`. -/
def livy_fail_log : List Char := "Failed to create a Livy session.".toList

/-- `_start_session`: when no session is started, set `session_started` to
true (before the payload executes), then run the add-session payload with
`shutdown_if_error=True`; an executor error therefore aborts fatally, but
only after the flag was already set. -/
def _start_session (ex : Executor) (st : KernelState) :
    Except KernelError Unit × KernelState :=
  if st.session_started then (Except.ok (), st)
  else
    let st1 := { st with session_started := true }
    match _execute_cell ex (add_session_code st1) true (some livy_fail_log) st1 with
    | (Except.ok _, st2) => (Except.ok (), st2)
    | (Except.error e, st2) => (Except.error e, st2)

/-- The `"%spark cleanup"` payload sent by `_delete_session`. -/
def cleanup_code : List Char := "%spark cleanup".toList

/-- `_delete_session`: when a session is started, send the cleanup payload
through `_execute_cell_for_user` (whose reply is discarded — no
`shutdown_if_error`) and unconditionally mark the session not started. -/
def _delete_session (ex : Executor) (st : KernelState) : KernelState :=
  if st.session_started then
    let p := _execute_cell_for_user ex cleanup_code st
    { p.2 with session_started := false }
  else st

/-- `_run_starting_session`: ensure a session is started, then execute the
payload (plain `_execute_cell`, no abort-on-error). -/
def _run_starting_session (ex : Executor) (code : List Char) (st : KernelState) :
    Except KernelError Reply × KernelState :=
  match _start_session ex st with
  | (Except.ok _, st1) => _execute_cell ex code false none st1
  | (Except.error e, st1) => (Except.error e, st1)

/-- `_run_restarting_session`: when `restart` is set, delete the current
session first; execute the payload; when `restart` is set, start a new
session afterwards; return the payload execution's reply. -/
def _run_restarting_session (ex : Executor) (code : List Char) (restart : Bool)
    (st : KernelState) : Except KernelError Reply × KernelState :=
  let st1 := if restart then _delete_session ex st else st
  match _execute_cell ex code false none st1 with
  | (Except.ok res, st2) =>
    if restart then
      match _start_session ex st2 with
      | (Except.ok _, st3) => (Except.ok res, st3)
      | (Except.error e, st3) => (Except.error e, st3)
    else (Except.ok res, st2)
  | (Except.error e, st2) => (Except.error e, st2)

/-- The `KeyError` message raised by `do_execute` when `config` is used on a
started session without the force flag (apostrophes, backticks and braces
written with `\x` escapes; the braces are literal in the source — the string
is never `.format`-ted). -/
def session_already_msg : List Char :=
  ("A session has already been started. In order to modify the Spark configuration, "
    ++ "please provide the \x27-f\x27 flag at the beginning of the config magic:\n\te.g. \x60%config"
    ++ " -f \x7b\x7d\x60\n\nNote that this will kill the current session and will create a new one "
    ++ "with the configuration provided. All previously run commands in the session will be"
    ++ " lost.").toList

/-- `do_execute`: the command-handling entry point.  Re-abort on a tripped
fatal latch; otherwise parse, then dispatch on the subcommand: `run`/`sql`/
`hive` wrap the body and run a starting session; `config` raises `KeyError`
on a started session without the `f` flag and otherwise runs a restarting
session (restart exactly when the session was started); anything else raises
`KeyError("Magic ... not supported.")`. -/
def do_execute (ex : Executor) (code : List Char) (st : KernelState) :
    Except KernelError Reply × KernelState :=
  match st.fatal_error with
  | some msg => _abort_with_fatal_error msg st
  | none =>
    match _parse_user_command code with
    | Except.error e => (Except.error e, st)
    | Except.ok (subcommand, flags, code_to_run) =>
      if subcommand = run_command then
        _run_starting_session ex ("%%spark\n".toList ++ code_to_run) st
      else if subcommand = sql_command then
        _run_starting_session ex ("%%spark -c sql\n".toList ++ code_to_run) st
      else if subcommand = hive_command then
        _run_starting_session ex ("%%spark -c hive\n".toList ++ code_to_run) st
      else if subcommand = config_command then
        if st.session_started then
          if "f".toList ∈ flags then
            _run_restarting_session ex ("%%spark config ".toList ++ code_to_run) true st
          else
            (Except.error (KernelError.keyError session_already_msg), st)
        else
          _run_restarting_session ex ("%%spark config ".toList ++ code_to_run) false st
      else
        (Except.error (KernelError.keyError
          ("Magic \x27".toList ++ subcommand ++ "\x27 not supported.".toList)), st)

/-- `do_shutdown`: always clean up the session before delegating to the host
kernel's shutdown (the delegation itself is external). -/
def do_shutdown (ex : Executor) (st : KernelState) : KernelState :=
  _delete_session ex st

/-- A concrete started-session state with an empty call trace, used for
concrete evaluations. -/
def stStarted : KernelState :=
  { session_started := true, fatal_error := none, calls := [],
    client_name := "cn".toList, session_language := "python".toList,
    connection_string := "url=u".toList }

/-- The same concrete state with no session started. -/
def stFresh : KernelState := { stStarted with session_started := false }

/-- A concrete executor whose every reply is `ok`. -/
def exAllOk : Executor := fun _ => { status := Status.ok, evalue := [] }

/-- A concrete executor whose every reply is `error` with evalue `"boom"`. -/
def exAllErr : Executor := fun _ => { status := Status.error, evalue := "boom".toList }

/-- An empty marker is a prefix of anything. -/
theorem pyStartsWith_nil (l : List Char) : pyStartsWith l [] = true := by
  cases l <;> rfl

/-- Dropping a prefix never lengthens a list. -/
theorem length_dropWhile_le (p : Char → Bool) (l : List Char) :
    (l.dropWhile p).length ≤ l.length := by
  induction l with
  | nil => simp
  | cons c cs ih =>
    rw [List.dropWhile_cons]
    by_cases h : p c
    · simp only [h, if_true]
      exact Nat.le_succ_of_le ih
    · simp [h]

/-- When `pySplit1` yields a token and a remainder, the remainder is strictly
shorter than the input. -/
theorem pySplit1_snd_length_lt (s t r : List Char) (h : pySplit1 s = [t, r]) :
    r.length < s.length := by
  unfold pySplit1 at h
  cases hd : s.dropWhile isPySpace with
  | nil => rw [hd] at h; simp at h
  | cons c cs =>
    rw [hd] at h
    dsimp only at h
    cases hr : (cs.dropWhile (fun x => !isPySpace x)).dropWhile isPySpace with
    | nil => rw [hr] at h; simp at h
    | cons d ds =>
      rw [hr] at h
      simp only [List.cons.injEq] at h
      obtain ⟨-, hrr, -⟩ := h
      have h1 : (d :: ds).length ≤ (cs.dropWhile (fun x => !isPySpace x)).length := by
        rw [← hr]; exact length_dropWhile_le _ _
      have h2 : (cs.dropWhile (fun x => !isPySpace x)).length ≤ cs.length :=
        length_dropWhile_le _ _
      have h3 : (c :: cs).length ≤ s.length := by
        rw [← hd]; exact length_dropWhile_le _ _
      rw [← hrr]
      simp only [List.length_cons] at *
      omega

/-- `getFlagsAux` does not depend on the fuel as long as the fuel is at least
the length of the remaining text. -/
theorem getFlagsAux_fuel (n : Nat) : ∀ (m : Nat) (fs : List (List Char)) (rest : List Char),
    rest.length ≤ n → rest.length ≤ m → getFlagsAux n fs rest = getFlagsAux m fs rest := by
  induction n with
  | zero =>
    intro m fs rest hn _
    have hrest : rest = [] := List.eq_nil_of_length_eq_zero (Nat.le_zero.mp hn)
    subst hrest
    cases m with
    | zero => rfl
    | succ m' => simp [getFlagsAux, pySplit1]
  | succ n' ih =>
    intro m fs rest hn hm
    cases m with
    | zero =>
      have hrest : rest = [] := List.eq_nil_of_length_eq_zero (Nat.le_zero.mp hm)
      subst hrest
      simp [getFlagsAux, pySplit1]
    | succ m' =>
      simp only [getFlagsAux]
      cases hp : pySplit1 rest with
      | nil => rfl
      | cons t ts =>
        cases ts with
        | nil => rfl
        | cons r rs =>
          cases rs with
          | nil =>
            have hlt : r.length < rest.length := pySplit1_snd_length_lt rest t r hp
            by_cases hd : t.head? = some '-'
            · simp only [hd, if_pos]
              exact ih m' _ r (by omega) (by omega)
            · simp [hd]
          | cons _ _ => rfl

/-- One iteration of the flag loop: a leading token that starts with `-` and
is followed by further text is popped as a flag (one `-` stripped,
lower-cased). -/
theorem getFlags_step (fs : List (List Char)) (rest t r : List Char)
    (hp : pySplit1 rest = [t, r]) (hd : t.head? = some '-') :
    getFlags fs rest = getFlags (fs ++ [(t.drop 1).map Char.toLower]) r := by
  have hlt : r.length < rest.length := pySplit1_snd_length_lt rest t r hp
  unfold getFlags
  cases hn : rest.length with
  | zero =>
    exfalso
    have : rest = [] := List.eq_nil_of_length_eq_zero hn
    subst this
    simp [pySplit1] at hp
  | succ k =>
    simp only [getFlagsAux, hp, hd, if_pos]
    exact getFlagsAux_fuel k r.length _ r (by omega) (le_refl _)

/-- The flag loop stops when the remaining text is a single token with no
further text after it: the token is not consumed, even if it starts
with `-`. -/
theorem getFlags_no_remainder (fs : List (List Char)) (rest t : List Char)
    (hp : pySplit1 rest = [t]) :
    getFlags fs rest = (fs, rest) := by
  unfold getFlags
  cases hn : rest.length with
  | zero => rfl
  | succ k => simp [getFlagsAux, hp]

/-- The flag loop stops when the leading token does not start with `-`. -/
theorem getFlags_nondash (fs : List (List Char)) (rest t r : List Char)
    (hp : pySplit1 rest = [t, r]) (hd : t.head? ≠ some '-') :
    getFlags fs rest = (fs, rest) := by
  unfold getFlags
  cases hn : rest.length with
  | zero => rfl
  | succ k => simp [getFlagsAux, hp, hd]

/-- `_execute_cell` with `shutdown_if_error = false` just forwards to the
executor and appends the payload to the trace. -/
theorem execute_cell_no_shutdown (ex : Executor) (code : List Char) (st : KernelState) :
    _execute_cell ex code false none st =
      (Except.ok (ex st.calls.length), { st with calls := st.calls ++ [code] }) := by
  simp [_execute_cell, _execute_cell_for_user]

/-- `_delete_session` on a started session: one cleanup payload, state marked
not started, everything else unchanged. -/
theorem delete_session_started (ex : Executor) (st : KernelState)
    (hs : st.session_started = true) :
    _delete_session ex st =
      { st with session_started := false, calls := st.calls ++ [cleanup_code] } := by
  simp [_delete_session, hs, _execute_cell_for_user]

/-- `_delete_session` on a not-started session is the identity. -/
theorem delete_session_not_started (ex : Executor) (st : KernelState)
    (hs : st.session_started = false) :
    _delete_session ex st = st := by
  simp [_delete_session, hs]

/-- `_start_session` on a not-started session: the started flag is set first,
the add-session payload is sent, and the call aborts fatally exactly when the
executor reply has error status. -/
theorem start_session_run (ex : Executor) (st : KernelState)
    (hs : st.session_started = false) :
    _start_session ex st =
      (if (ex st.calls.length).status = Status.error then
         Except.error (KernelError.valueError
           (exception_details_msg livy_fail_log (ex st.calls.length).evalue))
       else Except.ok (),
       { st with session_started := true,
                 calls := st.calls ++ [add_session_code st],
                 fatal_error :=
                   if (ex st.calls.length).status = Status.error then
                     some (exception_details_msg livy_fail_log (ex st.calls.length).evalue)
                   else st.fatal_error }) := by
  cases hst : (ex st.calls.length).status with
  | ok =>
    simp [_start_session, hs, _execute_cell, _execute_cell_for_user, hst, add_session_code]
  | error =>
    simp [_start_session, hs, _execute_cell, _execute_cell_for_user, hst,
      _abort_with_fatal_error, add_session_code]

/-- Reduction of `do_execute` for a parsed `config` command when the fatal
latch is empty. -/
theorem do_execute_config (ex : Executor) (st : KernelState)
    (code body : List Char) (flags : List (List Char))
    (hf : st.fatal_error = none)
    (hp : _parse_user_command code = Except.ok (config_command, flags, body)) :
    do_execute ex code st =
      if st.session_started then
        if "f".toList ∈ flags then
          _run_restarting_session ex ("%%spark config ".toList ++ body) true st
        else (Except.error (KernelError.keyError session_already_msg), st)
      else _run_restarting_session ex ("%%spark config ".toList ++ body) false st := by
  unfold do_execute
  rw [hf, hp]
  dsimp only
  rw [if_neg (by decide), if_neg (by decide), if_neg (by decide), if_pos rfl]

/-- `_run_restarting_session` without restart: a single executor call with
the given payload, session flag untouched. -/
theorem run_restarting_false (ex : Executor) (code : List Char) (st : KernelState) :
    _run_restarting_session ex code false st =
      (Except.ok (ex st.calls.length), { st with calls := st.calls ++ [code] }) := by
  simp [_run_restarting_session, execute_cell_no_shutdown]

/-- `_run_restarting_session` with restart on a started session: exactly the
calls [cleanup, payload, add-session] are issued and the session flag ends
true, whatever statuses the executor reports. -/
theorem restart_trace (ex : Executor) (code : List Char) (st : KernelState)
    (hs : st.session_started = true) :
    ((_run_restarting_session ex code true st).2).calls =
      st.calls ++ [cleanup_code, code, add_session_code st] ∧
    ((_run_restarting_session ex code true st).2).session_started = true := by
  by_cases hst : (ex (st.calls.length + 2)).status = Status.error <;>
    simp [_run_restarting_session, delete_session_started ex st hs, execute_cell_no_shutdown,
      start_session_run, add_session_code, hst, List.append_assoc]

/-- C1: in every state with the session STARTED and an empty fatal latch,
handling a config command whose parsed flags include the force flag `f`
produces exactly the executor call sequence [cleanup-session payload,
reconfigure payload built from the body, create-session payload], in that
order — the stop before and the start after occur unconditionally, for every
executor oracle, in particular even when the reconfigure payload's execution
reports an error status — and the session state is STARTED afterward. -/
theorem config_force_restart_sequence (ex : Executor) (st : KernelState)
    (code body : List Char) (flags : List (List Char))
    (hs : st.session_started = true) (hf : st.fatal_error = none)
    (hp : _parse_user_command code = Except.ok (config_command, flags, body))
    (hff : "f".toList ∈ flags) :
    (do_execute ex code st).2.calls =
      st.calls ++ [cleanup_code, "%%spark config ".toList ++ body, add_session_code st] ∧
    (do_execute ex code st).2.session_started = true := by
  rw [do_execute_config ex st code body flags hf hp, if_pos hs, if_pos hff]
  exact restart_trace ex _ st hs

/-- Witness for `config_force_restart_sequence` at a concrete state, input
and executor. -/
theorem config_force_restart_sequence_witness :
    stStarted.session_started = true ∧ stStarted.fatal_error = none ∧
    _parse_user_command "%config -f url=1".toList =
      Except.ok (config_command, ["f".toList], "url=1".toList) ∧
    "f".toList ∈ ["f".toList] ∧
    ((do_execute exAllOk "%config -f url=1".toList stStarted).2.calls =
        [cleanup_code, "%%spark config url=1".toList, add_session_code stStarted] ∧
      (do_execute exAllOk "%config -f url=1".toList stStarted).2.session_started = true) :=
  ⟨rfl, rfl, rfl, List.mem_singleton.mpr rfl,
    config_force_restart_sequence exAllOk stStarted "%config -f url=1".toList
      "url=1".toList ["f".toList] rfl rfl rfl (List.mem_singleton.mpr rfl)⟩

/-- C2 counterexample: a start attempt on a fresh state whose executor call
reports an error nevertheless leaves the session state STARTED, with the
fatal latch tripped — contradicting the claim that after a start attempt
whose executor call reports an error the state is not STARTED. -/
theorem started_despite_fatal_counterexample :
    (exAllErr stFresh.calls.length).status = Status.error ∧
    ((_start_session exAllErr stFresh).2).session_started = true ∧
    ((_start_session exAllErr stFresh).2).fatal_error =
      some (exception_details_msg livy_fail_log "boom".toList) :=
  ⟨rfl, rfl, rfl⟩

/-- C2 amended: `_start_session` marks the state STARTED before the
create-session payload executes; hence after a start attempt whose executor
call reports an error the session state is STARTED (not NOT_STARTED), the
call raises `ValueError` with the session-failure message, and the fatal
latch holds that same message. -/
theorem start_marks_started_before_completion (ex : Executor) (st : KernelState)
    (hs : st.session_started = false)
    (he : (ex st.calls.length).status = Status.error) :
    _start_session ex st =
      (Except.error (KernelError.valueError
          (exception_details_msg livy_fail_log (ex st.calls.length).evalue)),
        { st with session_started := true,
                  calls := st.calls ++ [add_session_code st],
                  fatal_error :=
                    some (exception_details_msg livy_fail_log (ex st.calls.length).evalue) }) := by
  simp [start_session_run ex st hs, he]

/-- Witness for `start_marks_started_before_completion` at a concrete state
and executor. -/
theorem start_marks_started_before_completion_witness :
    stFresh.session_started = false ∧
    (exAllErr stFresh.calls.length).status = Status.error ∧
    _start_session exAllErr stFresh =
      (Except.error (KernelError.valueError
          (exception_details_msg livy_fail_log "boom".toList)),
        { stFresh with session_started := true,
                       calls := [add_session_code stFresh],
                       fatal_error :=
                         some (exception_details_msg livy_fail_log "boom".toList) }) :=
  ⟨rfl, rfl, start_marks_started_before_completion exAllErr stFresh rfl rfl⟩

/-- C3: once the fatal latch holds a message `M`, every later `do_execute`
call fails by re-raising `ValueError(M)` whatever the input, performs no
parsing or dispatch (the state — executor-call trace, session flag and latch
included — is returned unchanged), and never produces a successful result. -/
theorem fatal_gate_replays (ex : Executor) (code : List Char) (st : KernelState)
    (m : List Char) (hm : st.fatal_error = some m) :
    do_execute ex code st = (Except.error (KernelError.valueError m), st) := by
  have hst : ({ st with fatal_error := some m } : KernelState) = st := by
    cases st
    simp_all
  unfold do_execute
  rw [hm]
  dsimp only
  unfold _abort_with_fatal_error
  rw [hst]

/-- Witness for `fatal_gate_replays` at a concrete tripped state, for one
concrete later input. -/
theorem fatal_gate_replays_witness :
    ({ stStarted with fatal_error := some "dead".toList } : KernelState).fatal_error
        = some "dead".toList ∧
    do_execute exAllOk "%run 1".toList { stStarted with fatal_error := some "dead".toList } =
      (Except.error (KernelError.valueError "dead".toList),
        { stStarted with fatal_error := some "dead".toList }) :=
  ⟨rfl, fatal_gate_replays exAllOk "%run 1".toList _ "dead".toList rfl⟩

/-- C4: in every state with the session STARTED and an empty fatal latch, a
parsed config command whose flags do not include `f` fails with the
`KeyError` carrying the remediation text `session_already_msg`, and the state
is returned exactly unchanged: zero executor calls, fatal latch not tripped,
session still STARTED. -/
theorem config_without_force_rejected (ex : Executor) (st : KernelState)
    (code body : List Char) (flags : List (List Char))
    (hs : st.session_started = true) (hf : st.fatal_error = none)
    (hp : _parse_user_command code = Except.ok (config_command, flags, body))
    (hnf : "f".toList ∉ flags) :
    do_execute ex code st = (Except.error (KernelError.keyError session_already_msg), st) := by
  rw [do_execute_config ex st code body flags hf hp, if_pos hs, if_neg hnf]

/-- Witness for `config_without_force_rejected` at a concrete state and
input. -/
theorem config_without_force_rejected_witness :
    stStarted.session_started = true ∧ stStarted.fatal_error = none ∧
    _parse_user_command "%config a=b".toList =
      Except.ok (config_command, [], "a=b".toList) ∧
    "f".toList ∉ ([] : List (List Char)) ∧
    do_execute exAllOk "%config a=b".toList stStarted =
      (Except.error (KernelError.keyError session_already_msg), stStarted) :=
  ⟨rfl, rfl, rfl, List.not_mem_nil _,
    config_without_force_rejected exAllOk stStarted "%config a=b".toList
      "a=b".toList [] rfl rfl rfl (List.not_mem_nil _)⟩

/-- C5: a trailing candidate flag token with no text after it is not consumed
by the flag loop: whenever the remaining text splits into a single
whitespace-separated token (even one that begins with `-`), the loop returns
the flags unchanged and leaves the token in the body — concretely, `%run -x`
parses to subcommand `run`, no flags, and body `-x`. -/
theorem trailing_flag_token_kept (fs : List (List Char)) (rest t : List Char)
    (hp : pySplit1 rest = [t]) :
    getFlags fs rest = (fs, rest) ∧
    _parse_user_command "%run -x".toList = Except.ok (run_command, [], "-x".toList) :=
  ⟨getFlags_no_remainder fs rest t hp, rfl⟩

/-- Witness for `trailing_flag_token_kept` at the concrete remaining
text `-x`. -/
theorem trailing_flag_token_kept_witness :
    pySplit1 "-x".toList = ["-x".toList] ∧
    (getFlags [] "-x".toList = ([], "-x".toList) ∧
      _parse_user_command "%run -x".toList = Except.ok (run_command, [], "-x".toList)) :=
  ⟨rfl, trailing_flag_token_kept [] "-x".toList "-x".toList rfl⟩

/-- C6 counterexample: the input `-v hello` does not begin with `%`, yet
`_parse_user_command` consumes `-v` as a flag: the returned flags list is
`["v"]`, not empty, and the returned body is `hello`, not the full trimmed
input `-v hello`. -/
theorem run_default_flags_counterexample :
    _parse_user_command "-v hello".toList =
      Except.ok (run_command, ["v".toList], "hello".toList) ∧
    "hello".toList ≠ "-v hello".toList ∧
    ["v".toList] ≠ ([] : List (List Char)) :=
  ⟨rfl, by decide, by decide⟩

/-- C6 amended: for every input that does not begin with the marker `%`,
whose left-trimmed form is nonempty and does not begin with the flag
introducer `-`, parse returns subcommand `run`, an empty flags list, and
body equal to the left-trimmed input (leading whitespace is removed by the
splitting rules; trailing whitespace is kept). -/
theorem run_default_wraps_input (code : List Char)
    (h0 : pyStartsWith code "%".toList = false)
    (h1 : code.dropWhile isPySpace ≠ [])
    (h2 : (code.dropWhile isPySpace).head? ≠ some '-') :
    _parse_user_command code = Except.ok (run_command, [], code.dropWhile isPySpace) := by
  obtain ⟨d, ds, hB⟩ : ∃ d ds, code.dropWhile isPySpace = d :: ds := by
    cases hB : code.dropWhile isPySpace with
    | nil => exact absurd hB h1
    | cons d ds => exact ⟨d, ds, rfl⟩
  have h0' : pyStartsWith code ['%'] = false := h0
  have h00 : pyStartsWith code ['%', '%'] = false := by
    cases code with
    | nil => rfl
    | cons c cs =>
      have hc : (c == '%') = false := by
        have h1' : ((c == '%') && pyStartsWith cs []) = false := h0'
        rwa [pyStartsWith_nil, Bool.and_true] at h1'
      show ((c == '%') && pyStartsWith cs ['%']) = false
      rw [hc]
      rfl
  have hnorm : normalized_code code = 'r' :: 'u' :: 'n' :: ' ' :: code := by
    simp [normalized_code, run_command, h00, h0']
  have hps : pySplit1 ('r' :: 'u' :: 'n' :: ' ' :: code) = [['r', 'u', 'n'], d :: ds] := by
    simp [pySplit1, isPySpace, hB]
  have hd : d ≠ '-' := by
    rw [hB] at h2
    simpa using h2
  have hidem : (d :: ds).dropWhile isPySpace = d :: ds := by
    rw [← hB]
    exact List.dropWhile_idempotent isPySpace code
  have hflags : getFlags [] (d :: ds) = ([], d :: ds) := by
    cases hr : (ds.dropWhile (fun x => !isPySpace x)).dropWhile isPySpace with
    | nil =>
      have hq : pySplit1 (d :: ds) = [d :: ds.takeWhile (fun x => !isPySpace x)] := by
        unfold pySplit1
        rw [hidem]
        dsimp only
        rw [hr]
      exact getFlags_no_remainder [] (d :: ds) _ hq
    | cons e es =>
      have hq : pySplit1 (d :: ds) =
          [d :: ds.takeWhile (fun x => !isPySpace x), e :: es] := by
        unfold pySplit1
        rw [hidem]
        dsimp only
        rw [hr]
      refine getFlags_nondash [] (d :: ds) _ (e :: es) hq ?_
      simpa using hd
  unfold _parse_user_command
  rw [hnorm, hps]
  dsimp only
  rw [hflags, hB]
  rfl

/-- Witness for `run_default_wraps_input` at a concrete marker-less input. -/
theorem run_default_wraps_input_witness :
    pyStartsWith "select 1".toList "%".toList = false ∧
    "select 1".toList.dropWhile isPySpace ≠ [] ∧
    ("select 1".toList.dropWhile isPySpace).head? ≠ some '-' ∧
    _parse_user_command "select 1".toList =
      Except.ok (run_command, [], "select 1".toList.dropWhile isPySpace) :=
  ⟨rfl, by decide, by decide,
    run_default_wraps_input "select 1".toList rfl (by decide) (by decide)⟩

/-- C7: when the normalized input splits into fewer than two
whitespace-separated parts (a subcommand with no body at all, e.g. a bare
`%run`), `_parse_user_command` raises `IndexError` (the `split_code[1]`
lookup), and `do_execute` propagates it immediately with the state exactly
unchanged: non-fatal, no executor call, the gate is not tripped. -/
theorem bare_command_malformed (ex : Executor) (st : KernelState) (code t : List Char)
    (hf : st.fatal_error = none)
    (h : pySplit1 (normalized_code code) = [t]) :
    _parse_user_command code = Except.error KernelError.indexError ∧
    do_execute ex code st = (Except.error KernelError.indexError, st) := by
  have hpp : _parse_user_command code = Except.error KernelError.indexError := by
    unfold _parse_user_command
    rw [h]
  refine ⟨hpp, ?_⟩
  unfold do_execute
  rw [hf]
  dsimp only
  rw [hpp]

/-- Witness for `bare_command_malformed` at the concrete bare input
`%run`. -/
theorem bare_command_malformed_witness :
    stStarted.fatal_error = none ∧
    pySplit1 (normalized_code "%run".toList) = ["run".toList] ∧
    (_parse_user_command "%run".toList = Except.error KernelError.indexError ∧
      do_execute exAllOk "%run".toList stStarted =
        (Except.error KernelError.indexError, stStarted)) :=
  ⟨rfl, rfl, bare_command_malformed exAllOk stStarted "%run".toList "run".toList rfl rfl⟩

/-- C8: `_delete_session` (stop) always leaves the session NOT_STARTED and
never touches the fatal latch; it issues exactly one cleanup payload when the
session was started and none otherwise, for every executor oracle (the
reply's outcome is ignored); and a second consecutive stop is a no-op, so two
consecutive stops issue at most one cleanup call. -/
theorem stop_best_effort (ex : Executor) (st : KernelState) :
    (_delete_session ex st).session_started = false ∧
    (_delete_session ex st).fatal_error = st.fatal_error ∧
    (_delete_session ex st).calls =
      (if st.session_started then st.calls ++ [cleanup_code] else st.calls) ∧
    _delete_session ex (_delete_session ex st) = _delete_session ex st := by
  cases hs : st.session_started with
  | false =>
    have h1 := delete_session_not_started ex st hs
    rw [h1]
    simp [h1, hs]
  | true =>
    have h1 := delete_session_started ex st hs
    have h2 : _delete_session ex
        ({ st with session_started := false, calls := st.calls ++ [cleanup_code] }) =
        { st with session_started := false, calls := st.calls ++ [cleanup_code] } :=
      delete_session_not_started ex _ rfl
    rw [h1, h2]
    simp [hs]

/-- C9: in every state with the session NOT_STARTED and an empty fatal
latch, handling a parsed config command — whatever its flags, so with or
without the force flag — issues exactly one executor call, the reconfigure
payload, and no create-session or cleanup-session payload; the session state
stays NOT_STARTED and the reconfigure reply is returned. -/
theorem config_not_started_single_call (ex : Executor) (st : KernelState)
    (code body : List Char) (flags : List (List Char))
    (hs : st.session_started = false) (hf : st.fatal_error = none)
    (hp : _parse_user_command code = Except.ok (config_command, flags, body)) :
    do_execute ex code st =
      (Except.ok (ex st.calls.length),
        { st with calls := st.calls ++ ["%%spark config ".toList ++ body] }) := by
  rw [do_execute_config ex st code body flags hf hp, if_neg (by simp [hs]),
    run_restarting_false]

/-- Witness for `config_not_started_single_call` at a concrete fresh state,
once with and once without the force flag would both apply; the force-flag
form is used here. -/
theorem config_not_started_single_call_witness :
    stFresh.session_started = false ∧ stFresh.fatal_error = none ∧
    _parse_user_command "%config -f a=b".toList =
      Except.ok (config_command, ["f".toList], "a=b".toList) ∧
    do_execute exAllOk "%config -f a=b".toList stFresh =
      (Except.ok (exAllOk 0),
        { stFresh with calls := ["%%spark config a=b".toList] }) :=
  ⟨rfl, rfl, rfl,
    config_not_started_single_call exAllOk stFresh "%config -f a=b".toList
      "a=b".toList ["f".toList] rfl rfl rfl⟩

/-- C10: flag parsing strips exactly one leading `-` from a consumed flag
token before lower-casing it (first conjunct, the general loop step);
consequently a force flag written `--f` (followed by more text) is recorded
as the flag `-f`, which fails the membership test for `"f"`, so on a started
session `config --f ...` is rejected exactly like a config without the force
flag. -/
theorem double_dash_flag_not_force (ex : Executor) (st : KernelState)
    (hs : st.session_started = true) (hf : st.fatal_error = none) :
    (∀ (fs : List (List Char)) (rest t r : List Char),
        pySplit1 rest = [t, r] → t.head? = some '-' →
        getFlags fs rest = getFlags (fs ++ [(t.drop 1).map Char.toLower]) r) ∧
    _parse_user_command "%config --f url=1".toList =
      Except.ok (config_command, ["-f".toList], "url=1".toList) ∧
    "f".toList ∉ ["-f".toList] ∧
    do_execute ex "%config --f url=1".toList st =
      (Except.error (KernelError.keyError session_already_msg), st) := by
  refine ⟨getFlags_step, rfl, by decide, ?_⟩
  rw [do_execute_config ex st "%config --f url=1".toList "url=1".toList
      ["-f".toList] hf rfl, if_pos hs, if_neg (by decide)]

/-- Witness for `double_dash_flag_not_force` at a concrete started state. -/
theorem double_dash_flag_not_force_witness :
    stStarted.session_started = true ∧ stStarted.fatal_error = none ∧
    do_execute exAllOk "%config --f url=1".toList stStarted =
      (Except.error (KernelError.keyError session_already_msg), stStarted) := by
  refine ⟨rfl, rfl, ?_⟩
  exact (double_dash_flag_not_force exAllOk stStarted rfl rfl).2.2.2

end SparkKernelBase
